import Mathlib

/-!
# Verification of the class-notify status-tracking and notification-debounce engine

Shallow embedding of the core of `src/backend/app.py`: the per-class branch of
`check_class_statuses`, the per-class branch of `hourly_reminder_check`,
`perform_immediate_check`, the `add_tracked_class` route body, and
`send_notification`.  Python dicts keyed by class number are embedded as
functions `String → Option _`; timestamps (`int(time.time() * 1000)`) as `Int`;
statuses and notification reasons as the literal strings the code uses
(`"OPEN"`, `"FULL"`, `"REMINDER"`).  A notification emission is a call to
`send_notification`; the external ntfy.sh delivery is an oracle
`deliver : Rendered → Bool` whose outcome the Python code catches and only
logs (`try/except` around `requests.post`).
-/

namespace ClassNotify

/-- `MAX_NOTIFICATIONS = 10` in app.py. -/
def MAX_NOTIFICATIONS : Nat := 10

/-- `NOTIFICATION_INTERVAL_HOURS = 1` in app.py. -/
def NOTIFICATION_INTERVAL_HOURS : Nat := 1

/-- The reminder window in milliseconds:
`NOTIFICATION_INTERVAL_HOURS * 60 * 60 * 1000` as used in `hourly_reminder_check`. -/
def REMINDER_INTERVAL_MS : Int := (NOTIFICATION_INTERVAL_HOURS : Int) * 60 * 60 * 1000

/-- One snapshot dict as returned by the fetch and stored in `tracked_classes`:
the fields app.py reads (`classNumber`, `className`, `status`, `title`,
`instructor`, `seats`). -/
structure ClassDetails where
  classNumber : String
  className : String
  status : String
  title : String
  instructor : String
  seats : String
deriving DecidableEq, Repr

/-- One `notify_tracker` entry: `{'count': …, 'lastSent': …, 'lastStatus': …}`. -/
structure Tracker where
  count : Nat
  lastSent : Int
  lastStatus : String
deriving DecidableEq, Repr

/-- The default tracker `{'count': 0, 'lastSent': 0, 'lastStatus': 'FULL'}`. -/
def initTracker : Tracker := ⟨0, 0, "FULL"⟩

/-- The two process-wide dicts, `tracked_classes` and `notify_tracker`,
each keyed by class number. -/
structure AppState where
  trackedClasses : String → Option ClassDetails
  notifyTracker : String → Option Tracker

/-- Dict assignment `m[k] = v`. -/
def upd {α : Type} (m : String → Option α) (k : String) (v : α) :
    String → Option α :=
  fun q => if q = k then some v else m q

/-- A message rendered by `send_notification` for posting to ntfy.sh.
`displayedCount` records, for a REMINDER, the reminder count the message text
displays (read from `notify_tracker` at render time). -/
structure Rendered where
  topic : String
  title : String
  message : String
  displayedCount : Option Nat
deriving DecidableEq, Repr

/-- One call to `send_notification(class_details, reason)`: the reason and
class number it was invoked with, and the rendered message together with the
delivery outcome when a post was attempted (`none` when the topic is unset or
the reason is unrecognized, in which case the function returns early). -/
structure Emission where
  reason : String
  classNumber : String
  delivery : Option (Rendered × Bool)
deriving DecidableEq, Repr

/-- The shared tail of every message body:
`f"{message}\nTitle: …\nInstructor: …\nSeats: …"`. -/
def renderBody (d : ClassDetails) (message : String) : String :=
  message ++ "\nTitle: " ++ d.title ++ "\nInstructor: " ++ d.instructor ++
    "\nSeats: " ++ d.seats

/-- The rendering part of `send_notification`: title and message per reason.
For `"REMINDER"` the displayed count is
`notify_tracker.get(class_details['classNumber'], {}).get('count', 0)`,
read from the tracker map as it stands at the moment of the call. -/
def render (ntfyTopic : String) (trk : String → Option Tracker)
    (d : ClassDetails) (reason : String) : Option Rendered :=
  if ntfyTopic = "" then none
  else if reason = "OPEN" then
    some ⟨ntfyTopic, "Seat Open: " ++ d.className,
      renderBody d ("✅ A seat just opened for " ++ d.className ++ " (" ++
        d.classNumber ++ ")!"), none⟩
  else if reason = "FULL" then
    some ⟨ntfyTopic, "Class Full: " ++ d.className,
      renderBody d ("❌ The open seat for " ++ d.className ++ " (" ++
        d.classNumber ++ ") is now full."), none⟩
  else if reason = "REMINDER" then
    some ⟨ntfyTopic, "Still Open: " ++ d.className,
      renderBody d ("📢 Reminder (" ++
        toString (((trk d.classNumber).map Tracker.count).getD 0) ++ "/" ++
        toString MAX_NOTIFICATIONS ++ "): A seat is still open for " ++
        d.className ++ " (" ++ d.classNumber ++ ")."),
      some (((trk d.classNumber).map Tracker.count).getD 0)⟩
  else none

/-- `send_notification`: render, then attempt the ntfy.sh post.  A post
failure is caught by `except Exception` and only logged, so the call always
returns; its record keeps the delivery outcome for inspection. -/
def send_notification (deliver : Rendered → Bool) (ntfyTopic : String)
    (trk : String → Option Tracker) (d : ClassDetails) (reason : String) :
    Emission :=
  ⟨reason, d.classNumber, (render ntfyTopic trk d reason).map fun r => (r, deliver r)⟩

/-- The body of the inner per-class loop of `check_class_statuses`
(app.py lines 119–134), run for one class number found in the fresh fetch map.
Note the Python reads the tracker with `notify_tracker.get(num, default)`:
when `num` is present the returned dict aliases the stored one, so in-place
`tracker.update(...)` mutations persist in the map; when `num` is absent the
default dict is mutated but never stored back into `notify_tracker`. -/
def checkOne (deliver : Rendered → Bool) (ntfyTopic : String) (now : Int)
    (st : AppState) (newDetails : ClassDetails) : AppState × List Emission :=
  let num := newDetails.classNumber
  let tracked' := upd st.trackedClasses num newDetails
  let inMap := (st.notifyTracker num).isSome
  let tracker := (st.notifyTracker num).getD initTracker
  let oldStatus := tracker.lastStatus
  let newStatus := newDetails.status
  if newStatus = oldStatus then
    (⟨tracked', st.notifyTracker⟩, [])
  else if newStatus = "OPEN" then
    let mid : Tracker := { tracker with count := 0, lastSent := 0 }
    let midMap := if inMap then upd st.notifyTracker num mid else st.notifyTracker
    let e := send_notification deliver ntfyTopic midMap newDetails "OPEN"
    let fin : Tracker := ⟨1, now, newStatus⟩
    (⟨tracked', if inMap then upd st.notifyTracker num fin else st.notifyTracker⟩, [e])
  else if newStatus = "FULL" ∧ oldStatus = "OPEN" then
    let e := send_notification deliver ntfyTopic st.notifyTracker newDetails "FULL"
    let fin : Tracker := ⟨0, 0, newStatus⟩
    (⟨tracked', if inMap then upd st.notifyTracker num fin else st.notifyTracker⟩, [e])
  else
    let fin : Tracker := { tracker with lastStatus := newStatus }
    (⟨tracked', if inMap then upd st.notifyTracker num fin else st.notifyTracker⟩, [])

/-- The dict comprehension
`{d['classNumber']: d for d in fresh_details_list}`: when two entries share a
class number, the later one wins. -/
def fresh_details_map (l : List ClassDetails) (num : String) :
    Option ClassDetails :=
  l.foldl (fun acc d => if d.classNumber = num then some d else acc) none

/-- The per-group body of `check_class_statuses`: iterate the group's class
numbers, skipping numbers missing from the fresh map, and run `checkOne` on
each hit.

Modelled from the spec: `class_checker.fetch_class_details` is not under
`src/`; per spec §4.3/§6 a failed fetch for a group yields no fresh data for
that group and the group is logged and skipped, which `fetchResult = none`
models. -/
def checkNums (deliver : Rendered → Bool) (ntfyTopic : String) (now : Int)
    (freshList : List ClassDetails) (nums : List String) (st : AppState) :
    AppState × List Emission :=
  match nums with
  | [] => (st, [])
  | num :: rest =>
    match fresh_details_map freshList num with
    | none => checkNums deliver ntfyTopic now freshList rest st
    | some nd =>
      let r := checkOne deliver ntfyTopic now st nd
      let rr := checkNums deliver ntfyTopic now freshList rest r.1
      (rr.1, r.2 ++ rr.2)

/-- One iteration of the outer per-group loop of `check_class_statuses`:
fetch the group, skip it entirely on failure, else process its numbers. -/
def checkGroup (deliver : Rendered → Bool) (ntfyTopic : String) (now : Int)
    (fetchResult : Option (List ClassDetails)) (nums : List String)
    (st : AppState) : AppState × List Emission :=
  match fetchResult with
  | none => (st, [])
  | some freshList => checkNums deliver ntfyTopic now freshList nums st

/-- `check_class_statuses` over the group partition `classes_to_fetch`
(a list of `(class_name, class_numbers)` pairs), with the snapshot source as
an oracle `fetch : groupKey → Option (fresh list)`. -/
def check_class_statuses (deliver : Rendered → Bool) (ntfyTopic : String)
    (now : Int) (fetch : String → Option (List ClassDetails))
    (groups : List (String × List String)) (st : AppState) :
    AppState × List Emission :=
  match groups with
  | [] => (st, [])
  | g :: gs =>
    let r := checkGroup deliver ntfyTopic now (fetch g.1) g.2 st
    let rest := check_class_statuses deliver ntfyTopic now fetch gs r.1
    (rest.1, r.2 ++ rest.2)

/-- The body of the per-tracker loop of `hourly_reminder_check`
(app.py lines 139–146) for one class number: skip unless the class is tracked
with snapshot status OPEN and `0 < count < MAX_NOTIFICATIONS` and the window
has elapsed; else send a REMINDER (the message reads the pre-increment count
from the map), then increment `count` and set `lastSent = now`. -/
def hourly_reminder_check_one (deliver : Rendered → Bool) (ntfyTopic : String)
    (now : Int) (st : AppState) (num : String) : AppState × List Emission :=
  match st.notifyTracker num with
  | none => (st, [])
  | some tracker =>
    match st.trackedClasses num with
    | none => (st, [])
    | some details =>
      if details.status = "OPEN" then
        if 0 < tracker.count ∧ tracker.count < MAX_NOTIFICATIONS ∧
            now - tracker.lastSent ≥ REMINDER_INTERVAL_MS then
          let e := send_notification deliver ntfyTopic st.notifyTracker details "REMINDER"
          (⟨st.trackedClasses,
            upd st.notifyTracker num
              { tracker with count := tracker.count + 1, lastSent := now }⟩, [e])
        else (st, [])
      else (st, [])

/-- `perform_immediate_check`: scan the fresh fetch list for the first entry
whose class number matches (the Python loop `break`s at the first hit).  On a
hit, store the fresh snapshot; if it is OPEN, install a default tracker, send
the OPEN notification, and (through the aliased dict) advance the stored
tracker to `{'count': 1, 'lastSent': now, 'lastStatus': 'OPEN'}`; otherwise
store a default tracker.  On no hit, nothing happens. -/
def perform_immediate_check (deliver : Rendered → Bool) (ntfyTopic : String)
    (now : Int) (freshList : List ClassDetails) (st : AppState)
    (classDetails : ClassDetails) : AppState × List Emission :=
  let num := classDetails.classNumber
  match freshList.find? (fun d => d.classNumber == num) with
  | none => (st, [])
  | some fd =>
    let tracked' := upd st.trackedClasses num fd
    if fd.status = "OPEN" then
      let midMap := upd st.notifyTracker num initTracker
      let e := send_notification deliver ntfyTopic midMap fd "OPEN"
      (⟨tracked', upd st.notifyTracker num ⟨1, now, "OPEN"⟩⟩, [e])
    else
      (⟨tracked', upd st.notifyTracker num initTracker⟩, [])

/-- The `add_tracked_class` route body: reject an empty class number with a
400, else store the submitted details in `tracked_classes` and run the
immediate check. -/
def add_tracked_class (deliver : Rendered → Bool) (ntfyTopic : String)
    (now : Int) (freshList : List ClassDetails) (st : AppState)
    (classDetails : ClassDetails) :
    Except String (AppState × List Emission) :=
  if classDetails.classNumber = "" then
    Except.error "classNumber is required"
  else
    let st1 : AppState :=
      ⟨upd st.trackedClasses classDetails.classNumber classDetails,
        st.notifyTracker⟩
    Except.ok (perform_immediate_check deliver ntfyTopic now freshList st1 classDetails)

/-- An operation on the shared state: one per-class status observation from a
background check, or one per-class reminder evaluation from an hourly tick. -/
inductive Op where
  | observe (now : Int) (newDetails : ClassDetails)
  | tick (now : Int) (num : String)

/-- Apply one operation to the state (emissions discarded). -/
def applyOp (deliver : Rendered → Bool) (ntfyTopic : String) (st : AppState) :
    Op → AppState
  | Op.observe now nd => (checkOne deliver ntfyTopic now st nd).1
  | Op.tick now num => (hourly_reminder_check_one deliver ntfyTopic now st num).1

/-- Apply a sequence of operations. -/
def applyOps (deliver : Rendered → Bool) (ntfyTopic : String) (st : AppState)
    (ops : List Op) : AppState :=
  ops.foldl (applyOp deliver ntfyTopic) st

/-- The counter invariant: every stored tracker has
`count ≤ MAX_NOTIFICATIONS`. -/
def countInv (st : AppState) : Prop :=
  ∀ k t, st.notifyTracker k = some t → t.count ≤ MAX_NOTIFICATIONS

/-- Run a sequence of hourly reminder evaluations for one class number at the
given times, counting the emissions. -/
def runTicks (deliver : Rendered → Bool) (ntfyTopic : String) (num : String)
    (st : AppState) : List Int → AppState × Nat
  | [] => (st, 0)
  | t :: ts =>
    let r := hourly_reminder_check_one deliver ntfyTopic t st num
    let rest := runTicks deliver ntfyTopic num r.1 ts
    (rest.1, r.2.length + rest.2)

/-! ## Concrete fixtures -/

/-- A concrete OPEN snapshot for class number 12345. -/
def dOpen : ClassDetails :=
  ⟨"12345", "CS101", "OPEN", "Intro to CS", "Prof. Lee", "1 of 30"⟩

/-- The same class with status FULL. -/
def dFull : ClassDetails :=
  ⟨"12345", "CS101", "FULL", "Intro to CS", "Prof. Lee", "0 of 30"⟩

/-- Empty shared state: no tracked classes, no trackers. -/
def st0 : AppState := ⟨fun _ => none, fun _ => none⟩

/-- A delivery oracle on which every post succeeds. -/
def deliverOk : Rendered → Bool := fun _ => true

/-! ## Claims -/

/-- C1: the claim asserts that after `checkOne` has processed a status for a
key, a second observation of the same status emits nothing and leaves the
tracker state unchanged, with exactly one notification total.  Evaluated at
the failing input — a key with no entry in `notify_tracker`, observed OPEN
twice — the code emits an OPEN notification on BOTH calls (two total), because
the tracker dict obtained from `notify_tracker.get(num, default)` is never
stored back into the map, so the first call leaves no trace. -/
theorem absent_key_debounce_refire :
    ((checkOne deliverOk "alerts" 1000 st0 dOpen).2.map Emission.reason
        = ["OPEN"])
    ∧ ((checkOne deliverOk "alerts" 2000
          (checkOne deliverOk "alerts" 1000 st0 dOpen).1 dOpen).2.map
            Emission.reason = ["OPEN"])
    ∧ ((checkOne deliverOk "alerts" 2000
          (checkOne deliverOk "alerts" 1000 st0 dOpen).1 dOpen).1.notifyTracker
            "12345" = none) := by
  refine ⟨rfl, rfl, rfl⟩

/-- C6: the claim asserts that `checkOne` on a key with no existing tracker
state first materializes the default state in the map, so that the state
resulting from the observation is persisted and visible to later calls.
Evaluated at the failing input — empty `notify_tracker`, an OPEN observation —
the code sends the notification but leaves `notify_tracker` without any entry
for the key, and an hourly reminder evaluation one interval later sees
nothing and is a no-op. -/
theorem absent_key_state_not_persisted :
    ((checkOne deliverOk "alerts" 1000 st0 dOpen).2.map Emission.reason
        = ["OPEN"])
    ∧ ((checkOne deliverOk "alerts" 1000 st0 dOpen).1.notifyTracker "12345"
        = none)
    ∧ (hourly_reminder_check_one deliverOk "alerts" (1000 + REMINDER_INTERVAL_MS)
        (checkOne deliverOk "alerts" 1000 st0 dOpen).1 "12345"
        = ((checkOne deliverOk "alerts" 1000 st0 dOpen).1, [])) := by
  refine ⟨rfl, rfl, rfl⟩

/-- A tracker mid OPEN streak: the opening alert went out at time 500. -/
def trkOpen : Tracker := ⟨1, 500, "OPEN"⟩

/-- State with class 12345 tracked (snapshot OPEN) and a default tracker. -/
def stTracked : AppState :=
  ⟨fun k => if k = "12345" then some dOpen else none,
   fun k => if k = "12345" then some initTracker else none⟩

/-- State with class 12345 tracked (snapshot OPEN) and its tracker mid
OPEN streak. -/
def stOpen : AppState :=
  ⟨fun k => if k = "12345" then some dOpen else none,
   fun k => if k = "12345" then some trkOpen else none⟩

/-- C2: for a tracked entity whose tracker state has `lastStatus ≠ "OPEN"`,
observing status OPEN emits exactly one SEAT_OPENED notification (reason
`"OPEN"`) and leaves the stored tracker at
`{'count': 1, 'lastSent': now, 'lastStatus': 'OPEN'}`. -/
theorem rising_edge_fires_once (deliver : Rendered → Bool) (ntfyTopic : String)
    (now : Int) (st : AppState) (trk : Tracker) (nd : ClassDetails)
    (h1 : st.notifyTracker nd.classNumber = some trk)
    (h2 : trk.lastStatus ≠ "OPEN") (h3 : nd.status = "OPEN") :
    ((checkOne deliver ntfyTopic now st nd).2.map Emission.reason = ["OPEN"])
    ∧ ((checkOne deliver ntfyTopic now st nd).1.notifyTracker nd.classNumber
        = some ⟨1, now, "OPEN"⟩) := by
  have hne : ¬ nd.status = trk.lastStatus := by
    rw [h3]; exact fun h => h2 h.symm
  simp only [checkOne, h1, Option.getD_some, Option.isSome_some, if_true,
    if_neg hne, if_pos h3]
  exact ⟨rfl, by simp [upd, send_notification, h3]⟩

/-- C2 witness: concrete instance at `stTracked`, observing `dOpen` at
time 500. -/
theorem rising_edge_fires_once_instance :
    ((checkOne deliverOk "alerts" 500 stTracked dOpen).2.map Emission.reason
        = ["OPEN"])
    ∧ ((checkOne deliverOk "alerts" 500 stTracked dOpen).1.notifyTracker
        "12345" = some ⟨1, 500, "OPEN"⟩) :=
  rising_edge_fires_once deliverOk "alerts" 500 stTracked initTracker dOpen
    (by rfl) (by decide) rfl

/-- C3: for a tracked entity whose tracker state has `lastStatus = "OPEN"`,
observing status FULL emits exactly one SEAT_CLOSED notification (reason
`"FULL"`) and leaves the stored tracker at
`{'count': 0, 'lastSent': 0, 'lastStatus': 'FULL'}` — the code resets
`lastSent` to 0, which the claim permits. -/
theorem falling_edge_fires_once (deliver : Rendered → Bool) (ntfyTopic : String)
    (now : Int) (st : AppState) (trk : Tracker) (nd : ClassDetails)
    (h1 : st.notifyTracker nd.classNumber = some trk)
    (h2 : trk.lastStatus = "OPEN") (h3 : nd.status = "FULL") :
    ((checkOne deliver ntfyTopic now st nd).2.map Emission.reason = ["FULL"])
    ∧ ((checkOne deliver ntfyTopic now st nd).1.notifyTracker nd.classNumber
        = some ⟨0, 0, "FULL"⟩) := by
  have hne : ¬ nd.status = trk.lastStatus := by
    rw [h3, h2]; decide
  have hnopen : ¬ nd.status = "OPEN" := by rw [h3]; decide
  have hfall : nd.status = "FULL" ∧ trk.lastStatus = "OPEN" := ⟨h3, h2⟩
  simp only [checkOne, h1, Option.getD_some, Option.isSome_some, if_true,
    if_neg hne, if_neg hnopen, if_pos hfall]
  exact ⟨rfl, by simp [upd, send_notification, h3]⟩

/-- C3 witness: concrete instance at `stOpen`, observing `dFull` at
time 4000. -/
theorem falling_edge_fires_once_instance :
    ((checkOne deliverOk "alerts" 4000 stOpen dFull).2.map Emission.reason
        = ["FULL"])
    ∧ ((checkOne deliverOk "alerts" 4000 stOpen dFull).1.notifyTracker
        "12345" = some ⟨0, 0, "FULL"⟩) :=
  falling_edge_fires_once deliverOk "alerts" 4000 stOpen trkOpen dFull
    (by rfl) rfl rfl

/-- For a nonempty topic, a REMINDER render displays the count read from the
tracker map at render time. -/
lemma render_reminder_displayedCount (ntfyTopic : String)
    (trk : String → Option Tracker) (d : ClassDetails)
    (ht : ¬ ntfyTopic = "") :
    (render ntfyTopic trk d "REMINDER").map Rendered.displayedCount
      = some (some (((trk d.classNumber).map Tracker.count).getD 0)) := by
  simp [render, ht]

/-- C4: a single reminder evaluation for one entity (tracked, with a tracker
entry) emits a REMINDER iff the snapshot status is OPEN, the count is strictly
between 0 and `MAX_NOTIFICATIONS`, and the interval has elapsed; at most one
emission is produced, every emission is a REMINDER for the entity, and on
firing the message displays the pre-increment count while the stored tracker
gets `count + 1` and `lastSent = now`. -/
theorem reminder_tick_spec (deliver : Rendered → Bool) (ntfyTopic : String)
    (now : Int) (st : AppState) (num : String) (trk : Tracker)
    (d : ClassDetails) (h1 : st.notifyTracker num = some trk)
    (h2 : st.trackedClasses num = some d) (hd : d.classNumber = num) :
    (((hourly_reminder_check_one deliver ntfyTopic now st num).2 ≠ []) ↔
      (d.status = "OPEN" ∧ 0 < trk.count ∧ trk.count < MAX_NOTIFICATIONS ∧
        now - trk.lastSent ≥ REMINDER_INTERVAL_MS))
    ∧ (hourly_reminder_check_one deliver ntfyTopic now st num).2.length ≤ 1
    ∧ (∀ e ∈ (hourly_reminder_check_one deliver ntfyTopic now st num).2,
        e.reason = "REMINDER" ∧ e.classNumber = num)
    ∧ (d.status = "OPEN" → 0 < trk.count → trk.count < MAX_NOTIFICATIONS →
        now - trk.lastSent ≥ REMINDER_INTERVAL_MS →
        ((hourly_reminder_check_one deliver ntfyTopic now st num).1.notifyTracker
            num = some ⟨trk.count + 1, now, trk.lastStatus⟩
          ∧ (¬ ntfyTopic = "" →
              (hourly_reminder_check_one deliver ntfyTopic now st num).2.map
                  (fun e => e.delivery.map fun p => p.1.displayedCount)
                = [some (some trk.count)]))) := by
  simp only [hourly_reminder_check_one, h1, h2]
  by_cases hs : d.status = "OPEN"
  · rw [if_pos hs]
    by_cases hc : 0 < trk.count ∧ trk.count < MAX_NOTIFICATIONS ∧
        now - trk.lastSent ≥ REMINDER_INTERVAL_MS
    · rw [if_pos hc]
      refine ⟨?_, ?_, ?_, ?_⟩
      · simp [hs, hc.1, hc.2.1, hc.2.2]
      · simp
      · intro e he
        simp only [List.mem_singleton] at he
        subst he
        exact ⟨rfl, by rw [send_notification]; exact hd⟩
      · intro _ _ _ _
        refine ⟨by simp [upd], fun ht => ?_⟩
        have hr := render_reminder_displayedCount ntfyTopic st.notifyTracker d ht
        rw [hd, h1] at hr
        simp only [Option.map_some', Option.getD_some] at hr
        simp only [List.map_cons, List.map_nil, send_notification,
          Option.map_map, List.cons.injEq, and_true]
        exact hr
    · rw [if_neg hc]
      refine ⟨by simp [hc, hs], by simp, by simp, ?_⟩
      intro _ hc1 hc2 hc3
      exact absurd ⟨hc1, hc2, hc3⟩ hc
  · rw [if_neg hs]
    refine ⟨by simp [hs], by simp, by simp, fun h => absurd h hs⟩

/-- C4 witness: concrete instance at `stOpen` one hour after the opening
alert. -/
theorem reminder_tick_spec_instance :
    (((hourly_reminder_check_one deliverOk "alerts" (500 + 3600000) stOpen
          "12345").2 ≠ []) ↔
      (dOpen.status = "OPEN" ∧ 0 < trkOpen.count ∧
        trkOpen.count < MAX_NOTIFICATIONS ∧
        (500 + 3600000 : Int) - trkOpen.lastSent ≥ REMINDER_INTERVAL_MS))
    ∧ (hourly_reminder_check_one deliverOk "alerts" (500 + 3600000) stOpen
        "12345").2.length ≤ 1
    ∧ (∀ e ∈ (hourly_reminder_check_one deliverOk "alerts" (500 + 3600000)
          stOpen "12345").2, e.reason = "REMINDER" ∧ e.classNumber = "12345")
    ∧ (dOpen.status = "OPEN" → 0 < trkOpen.count →
        trkOpen.count < MAX_NOTIFICATIONS →
        (500 + 3600000 : Int) - trkOpen.lastSent ≥ REMINDER_INTERVAL_MS →
        ((hourly_reminder_check_one deliverOk "alerts" (500 + 3600000) stOpen
            "12345").1.notifyTracker "12345"
            = some ⟨trkOpen.count + 1, 500 + 3600000, trkOpen.lastStatus⟩
          ∧ (¬ ("alerts" : String) = "" →
              (hourly_reminder_check_one deliverOk "alerts" (500 + 3600000)
                  stOpen "12345").2.map
                  (fun e => e.delivery.map fun p => p.1.displayedCount)
                = [some (some trkOpen.count)]))) :=
  reminder_tick_spec deliverOk "alerts" (500 + 3600000) stOpen "12345" trkOpen
    dOpen (by rfl) (by rfl) rfl

/-- A status observation preserves the counter invariant: every count it
stores is 1, 0, or an already-stored count. -/
lemma countInv_checkOne (deliver : Rendered → Bool) (ntfyTopic : String)
    (now : Int) (st : AppState) (nd : ClassDetails) (inv : countInv st) :
    countInv (checkOne deliver ntfyTopic now st nd).1 := by
  intro k t hk
  rcases hmn : st.notifyTracker nd.classNumber with _ | trk
  · simp [checkOne, hmn] at hk
    split at hk
    · exact inv k t (by simpa using hk)
    · split at hk
      · exact inv k t (by simpa using hk)
      · split at hk
        · exact inv k t (by simpa using hk)
        · exact inv k t (by simpa using hk)
  · have htrk := inv nd.classNumber trk hmn
    simp [checkOne, hmn] at hk
    split at hk
    · exact inv k t (by simpa using hk)
    · split at hk
      · simp [upd] at hk
        split at hk
        · cases hk
          norm_num [MAX_NOTIFICATIONS]
        · exact inv k t hk
      · split at hk
        · simp [upd] at hk
          split at hk
          · cases hk
            norm_num [MAX_NOTIFICATIONS]
          · exact inv k t hk
        · simp [upd] at hk
          split at hk
          · cases hk
            simpa [MAX_NOTIFICATIONS] using htrk
          · exact inv k t hk

/-- A reminder evaluation preserves the counter invariant: it only increments
a count that is strictly below `MAX_NOTIFICATIONS`. -/
lemma countInv_tick (deliver : Rendered → Bool) (ntfyTopic : String)
    (now : Int) (st : AppState) (num : String) (inv : countInv st) :
    countInv (hourly_reminder_check_one deliver ntfyTopic now st num).1 := by
  intro k t hk
  rcases hmn : st.notifyTracker num with _ | trk
  · simp [hourly_reminder_check_one, hmn] at hk
    exact inv k t hk
  · rcases hmd : st.trackedClasses num with _ | d
    · simp [hourly_reminder_check_one, hmn, hmd] at hk
      exact inv k t hk
    · simp [hourly_reminder_check_one, hmn, hmd] at hk
      split at hk
      · split at hk
        · rename_i hs hcond
          simp [upd] at hk
          split at hk
          · cases hk
            have := hcond.2.1
            simp [MAX_NOTIFICATIONS] at this ⊢
            omega
          · exact inv k t hk
        · exact inv k t (by simpa using hk)
      · exact inv k t (by simpa using hk)

/-- Any sequence of observations and reminder evaluations preserves the
counter invariant. -/
lemma countInv_applyOps (deliver : Rendered → Bool) (ntfyTopic : String)
    (ops : List Op) : ∀ st : AppState, countInv st →
    countInv (applyOps deliver ntfyTopic st ops) := by
  induction ops with
  | nil => intro st inv; exact inv
  | cons op rest ih =>
    intro st inv
    rcases op with ⟨now, nd⟩ | ⟨now, num⟩
    · exact ih _ (countInv_checkOne deliver ntfyTopic now st nd inv)
    · exact ih _ (countInv_tick deliver ntfyTopic now st num inv)

/-- Once a tracker's count reaches `MAX_NOTIFICATIONS`, a reminder evaluation
for it is an exact no-op. -/
lemma tick_at_max (deliver : Rendered → Bool) (ntfyTopic : String) (now : Int)
    (st : AppState) (num : String) (trk : Tracker)
    (h1 : st.notifyTracker num = some trk)
    (hmax : trk.count = MAX_NOTIFICATIONS) :
    hourly_reminder_check_one deliver ntfyTopic now st num = (st, []) := by
  rcases hmd : st.trackedClasses num with _ | d
  · simp [hourly_reminder_check_one, h1, hmd]
  · simp only [hourly_reminder_check_one, h1, hmd]
    by_cases hs : d.status = "OPEN"
    · rw [if_pos hs, if_neg]
      intro hcond
      rw [hmax] at hcond
      exact lt_irrefl _ hcond.2.1
    · rw [if_neg hs]

/-- Across a run of reminder evaluations for one class number, the total
number of emissions plus the starting count never exceeds
`MAX_NOTIFICATIONS`. -/
lemma runTicks_bound (deliver : Rendered → Bool) (ntfyTopic : String)
    (num : String) : ∀ (ts : List Int) (st : AppState) (trk : Tracker),
    st.notifyTracker num = some trk → trk.count ≤ MAX_NOTIFICATIONS →
    (runTicks deliver ntfyTopic num st ts).2 + trk.count ≤ MAX_NOTIFICATIONS := by
  intro ts
  induction ts with
  | nil =>
    intro st trk h hle
    simpa [runTicks] using hle
  | cons t ts ih =>
    intro st trk h hle
    simp only [runTicks]
    rcases hmd : st.trackedClasses num with _ | d
    · simp [hourly_reminder_check_one, h, hmd]
      simpa using ih st trk h hle
    · by_cases hs : d.status = "OPEN"
      · by_cases hc : 0 < trk.count ∧ trk.count < MAX_NOTIFICATIONS ∧
            t - trk.lastSent ≥ REMINDER_INTERVAL_MS
        · simp [hourly_reminder_check_one, h, hmd, hs, hc]
          have h' : (upd st.notifyTracker num
                { trk with count := trk.count + 1, lastSent := t }) num
              = some { trk with count := trk.count + 1, lastSent := t } := by
            simp [upd]
          have hrec := ih
            ⟨st.trackedClasses,
              upd st.notifyTracker num
                { trk with count := trk.count + 1, lastSent := t }⟩
            { trk with count := trk.count + 1, lastSent := t } h' hc.2.1
          have hrec' : (runTicks deliver ntfyTopic num
              ⟨st.trackedClasses,
                upd st.notifyTracker num
                  { trk with count := trk.count + 1, lastSent := t }⟩ ts).2
              + (trk.count + 1) ≤ MAX_NOTIFICATIONS := hrec
          omega
        · simp [hourly_reminder_check_one, h, hmd, hs, hc]
          simpa using ih st trk h hle
      · simp [hourly_reminder_check_one, h, hmd, hs]
        simpa using ih st trk h hle

/-- C5: the tracker counts stay bounded by `MAX_NOTIFICATIONS` under every
sequence of observations and reminder evaluations; a reminder evaluation for
a tracker already at `MAX_NOTIFICATIONS` is an exact no-op; and during one
OPEN streak (reminder evaluations only) after the opening alert set the count
to 1, at most `MAX_NOTIFICATIONS - 1` REMINDER notifications are emitted. -/
theorem reminder_count_bounded (deliver : Rendered → Bool) (ntfyTopic : String)
    (st : AppState) (ops : List Op) (num2 num3 : String) (trk2 trk3 : Tracker)
    (now : Int) (ts : List Int) :
    (countInv st → countInv (applyOps deliver ntfyTopic st ops))
    ∧ (st.notifyTracker num2 = some trk2 →
        trk2.count = MAX_NOTIFICATIONS →
        hourly_reminder_check_one deliver ntfyTopic now st num2 = (st, []))
    ∧ (st.notifyTracker num3 = some trk3 → trk3.count = 1 →
        (runTicks deliver ntfyTopic num3 st ts).2 ≤ MAX_NOTIFICATIONS - 1) := by
  refine ⟨fun inv => countInv_applyOps deliver ntfyTopic ops st inv,
    fun h hm => tick_at_max deliver ntfyTopic now st num2 trk2 h hm,
    fun h h1 => ?_⟩
  have := runTicks_bound deliver ntfyTopic num3 ts st trk3 h
    (by rw [h1]; norm_num [MAX_NOTIFICATIONS])
  rw [h1] at this
  omega

/-- A tracker whose count has reached the cap. -/
def trkMax : Tracker := ⟨10, 500, "OPEN"⟩

/-- A second concrete OPEN snapshot, class number 99999. -/
def dOpen2 : ClassDetails :=
  ⟨"99999", "MATH2", "OPEN", "Calculus", "Prof. Wu", "2 of 40"⟩

/-- State tracking classes 12345 (tracker mid streak) and 99999 (tracker at
the cap). -/
def stTwo : AppState :=
  ⟨fun k => if k = "12345" then some dOpen
    else if k = "99999" then some dOpen2 else none,
   fun k => if k = "12345" then some trkOpen
    else if k = "99999" then some trkMax else none⟩

/-- C5 witness: concrete instance at `stTwo` — the invariant survives a tick,
the capped tracker's tick is a no-op, and one elapsed tick emits at most
`MAX_NOTIFICATIONS - 1` reminders. -/
theorem reminder_count_bounded_instance :
    countInv (applyOps deliverOk "alerts" stTwo [Op.tick 4000000 "12345"])
    ∧ hourly_reminder_check_one deliverOk "alerts" 4000000 stTwo "99999"
        = (stTwo, [])
    ∧ (runTicks deliverOk "alerts" "12345" stTwo [3600500]).2
        ≤ MAX_NOTIFICATIONS - 1 := by
  have h := reminder_count_bounded deliverOk "alerts" stTwo
    [Op.tick 4000000 "12345"] "99999" "12345" trkMax trkOpen 4000000 [3600500]
  refine ⟨h.1 ?_, h.2.1 (by rfl) rfl, h.2.2 (by rfl) rfl⟩
  intro k t ht
  by_cases h1 : k = "12345"
  · subst h1
    simp [stTwo] at ht
    subst ht
    decide
  · by_cases h2 : k = "99999"
    · subst h2
      simp [stTwo] at ht
      subst ht
      decide
    · simp [stTwo, h1, h2] at ht

/-- `checkOne` mutates both maps only at the processed class number. -/
lemma checkOne_state_other (deliver : Rendered → Bool) (ntfyTopic : String)
    (now : Int) (st : AppState) (nd : ClassDetails) (k : String)
    (h : ¬ k = nd.classNumber) :
    (checkOne deliver ntfyTopic now st nd).1.trackedClasses k
        = st.trackedClasses k
    ∧ (checkOne deliver ntfyTopic now st nd).1.notifyTracker k
        = st.notifyTracker k := by
  refine ⟨?_, ?_⟩ <;>
  · simp only [checkOne]
    split
    · simp [upd, h]
    · split
      · simp [upd, h, ite_apply]
      · split
        · simp [upd, h, ite_apply]
        · simp [upd, h, ite_apply]

/-- A hit in the fresh details map has the looked-up class number. -/
lemma fresh_details_map_spec (num : String) :
    ∀ (l : List ClassDetails) (acc : Option ClassDetails),
    (∀ d, acc = some d → d.classNumber = num) → ∀ d,
    l.foldl (fun acc d => if d.classNumber = num then some d else acc) acc
        = some d → d.classNumber = num := by
  intro l
  induction l with
  | nil => exact fun acc hacc d h => hacc d h
  | cons x xs ih =>
    intro acc hacc d h
    simp only [List.foldl_cons] at h
    refine ih _ (fun e he => ?_) d h
    by_cases hx : x.classNumber = num
    · rw [if_pos hx] at he
      cases he
      exact hx
    · rw [if_neg hx] at he
      exact hacc e he

/-- `checkNums` mutates both maps only at class numbers in its list. -/
lemma checkNums_state_other (deliver : Rendered → Bool) (ntfyTopic : String)
    (now : Int) (freshList : List ClassDetails) :
    ∀ (nums : List String) (st : AppState) (k : String), ¬ k ∈ nums →
    (checkNums deliver ntfyTopic now freshList nums st).1.trackedClasses k
        = st.trackedClasses k
    ∧ (checkNums deliver ntfyTopic now freshList nums st).1.notifyTracker k
        = st.notifyTracker k := by
  intro nums
  induction nums with
  | nil => exact fun st k _ => ⟨rfl, rfl⟩
  | cons num rest ih =>
    intro st k h
    have hk1 : ¬ k = num := fun he => h (he ▸ List.mem_cons_self _ _)
    have hk2 : ¬ k ∈ rest := fun he => h (List.mem_cons_of_mem _ he)
    simp only [checkNums]
    cases hfm : fresh_details_map freshList num with
    | none => exact ih st k hk2
    | some nd =>
      have hcn : nd.classNumber = num :=
        fresh_details_map_spec num freshList none (fun d hd => by cases hd) nd hfm
      have h1 := checkOne_state_other deliver ntfyTopic now st nd k
        (by rw [hcn]; exact hk1)
      have h2 := ih (checkOne deliver ntfyTopic now st nd).1 k hk2
      exact ⟨h2.1.trans h1.1, h2.2.trans h1.2⟩

/-- `checkGroup` mutates both maps only at class numbers in its group. -/
lemma checkGroup_state_other (deliver : Rendered → Bool) (ntfyTopic : String)
    (now : Int) (fetchResult : Option (List ClassDetails)) (nums : List String)
    (st : AppState) (k : String) (h : ¬ k ∈ nums) :
    (checkGroup deliver ntfyTopic now fetchResult nums st).1.trackedClasses k
        = st.trackedClasses k
    ∧ (checkGroup deliver ntfyTopic now fetchResult nums st).1.notifyTracker k
        = st.notifyTracker k := by
  cases fetchResult with
  | none => exact ⟨rfl, rfl⟩
  | some l => exact checkNums_state_other deliver ntfyTopic now l nums st k h

/-- An entity all of whose groups fail to fetch keeps its snapshot and
tracker through a whole reconciliation cycle. -/
lemma check_class_statuses_unchanged (deliver : Rendered → Bool)
    (ntfyTopic : String) (now : Int)
    (fetch : String → Option (List ClassDetails)) :
    ∀ (groups : List (String × List String)) (st : AppState) (k : String),
    (∀ p ∈ groups, k ∈ p.2 → fetch p.1 = none) →
    (check_class_statuses deliver ntfyTopic now fetch groups st).1.trackedClasses
        k = st.trackedClasses k
    ∧ (check_class_statuses deliver ntfyTopic now fetch groups st).1.notifyTracker
        k = st.notifyTracker k := by
  intro groups
  induction groups with
  | nil => exact fun st k _ => ⟨rfl, rfl⟩
  | cons g gs ih =>
    intro st k h
    have hrest := fun st' => ih st' k (fun p hp => h p (List.mem_cons_of_mem _ hp))
    have hg : (checkGroup deliver ntfyTopic now (fetch g.1) g.2 st).1.trackedClasses
          k = st.trackedClasses k
        ∧ (checkGroup deliver ntfyTopic now (fetch g.1) g.2 st).1.notifyTracker
          k = st.notifyTracker k := by
      by_cases hk : k ∈ g.2
      · rw [h g (List.mem_cons_self _ _) hk]
        exact ⟨rfl, rfl⟩
      · exact checkGroup_state_other deliver ntfyTopic now (fetch g.1) g.2 st k hk
    simp only [check_class_statuses]
    exact ⟨((hrest _).1).trans hg.1, ((hrest _).2).trans hg.2⟩

/-- Dropping the failing groups from a cycle changes nothing: each failed
fetch makes its group an exact no-op. -/
lemma check_class_statuses_filter (deliver : Rendered → Bool)
    (ntfyTopic : String) (now : Int)
    (fetch : String → Option (List ClassDetails)) :
    ∀ (groups : List (String × List String)) (st : AppState),
    check_class_statuses deliver ntfyTopic now fetch groups st
      = check_class_statuses deliver ntfyTopic now fetch
          (groups.filter fun p => (fetch p.1).isSome) st := by
  intro groups
  induction groups with
  | nil => exact fun _ => rfl
  | cons g gs ih =>
    intro st
    cases hf : fetch g.1 with
    | none =>
      have hfl : (g :: gs).filter (fun p => (fetch p.1).isSome)
          = gs.filter (fun p => (fetch p.1).isSome) := by
        simp [List.filter_cons, hf]
      rw [hfl]
      simp only [check_class_statuses, hf, checkGroup, List.nil_append]
      rw [← ih st]
    | some l =>
      have hfl : (g :: gs).filter (fun p => (fetch p.1).isSome)
          = g :: gs.filter (fun p => (fetch p.1).isSome) := by
        simp [List.filter_cons, hf]
      rw [hfl]
      simp only [check_class_statuses, hf]
      rw [ih]

/-- C7: in a reconciliation cycle over two or more groups, an entity whose
group's fetch fails keeps its prior snapshot and tracker state unchanged,
and the whole cycle behaves exactly as the cycle over the successfully
fetched groups alone — one group's failure never prevents processing of the
remaining groups. -/
theorem group_failure_isolation (deliver : Rendered → Bool)
    (ntfyTopic : String) (now : Int)
    (fetch : String → Option (List ClassDetails))
    (groups : List (String × List String)) (st : AppState) (k : String)
    (_hlen : 2 ≤ groups.length)
    (hfail : ∀ p ∈ groups, k ∈ p.2 → fetch p.1 = none) :
    ((check_class_statuses deliver ntfyTopic now fetch groups st).1.trackedClasses
        k = st.trackedClasses k
      ∧ (check_class_statuses deliver ntfyTopic now fetch groups
          st).1.notifyTracker k = st.notifyTracker k)
    ∧ check_class_statuses deliver ntfyTopic now fetch groups st
        = check_class_statuses deliver ntfyTopic now fetch
            (groups.filter fun p => (fetch p.1).isSome) st :=
  ⟨check_class_statuses_unchanged deliver ntfyTopic now fetch groups st k hfail,
   check_class_statuses_filter deliver ntfyTopic now fetch groups st⟩

/-- A snapshot source on which the CS101 group fetch fails and the MATH2
group fetch succeeds. -/
def fetchW : String → Option (List ClassDetails) :=
  fun g => if g = "MATH2" then some [dOpen2] else none

/-- A two-group partition: CS101 with class 12345, MATH2 with class 99999. -/
def groupsW : List (String × List String) :=
  [("CS101", ["12345"]), ("MATH2", ["99999"])]

/-- C7 witness: concrete two-group cycle at `stTwo` where CS101 fails and
MATH2 succeeds. -/
theorem group_failure_isolation_instance :
    ((check_class_statuses deliverOk "alerts" 1000 fetchW groupsW
          stTwo).1.trackedClasses "12345" = stTwo.trackedClasses "12345"
      ∧ (check_class_statuses deliverOk "alerts" 1000 fetchW groupsW
          stTwo).1.notifyTracker "12345" = stTwo.notifyTracker "12345")
    ∧ check_class_statuses deliverOk "alerts" 1000 fetchW groupsW stTwo
        = check_class_statuses deliverOk "alerts" 1000 fetchW
            (groupsW.filter fun p => (fetchW p.1).isSome) stTwo :=
  group_failure_isolation deliverOk "alerts" 1000 fetchW groupsW stTwo "12345"
    (by decide) (by decide)

/-- C8 counterexample: running the immediate check for class 12345 against a
fetch result that does not contain it leaves `notify_tracker` without any
entry for 12345 — the claim asserts an initial inactive state would still be
created. -/
theorem immediate_check_missing_entity_uninitialized :
    (perform_immediate_check deliverOk "alerts" 1000 [dOpen2] st0
        dOpen).1.notifyTracker "12345" = none
    ∧ (perform_immediate_check deliverOk "alerts" 1000 [dOpen2] st0 dOpen).2
        = [] :=
  ⟨rfl, rfl⟩

/-- C8 amended: when the entity's class number is not found in the immediate
fetch result, `perform_immediate_check` creates nothing and emits nothing —
the whole call is an exact no-op, so the tracker entry stays absent. -/
theorem immediate_check_missing_entity_noop (deliver : Rendered → Bool)
    (ntfyTopic : String) (now : Int) (st : AppState)
    (classDetails : ClassDetails) (freshList : List ClassDetails)
    (h : ∀ d ∈ freshList, ¬ d.classNumber = classDetails.classNumber) :
    perform_immediate_check deliver ntfyTopic now freshList st classDetails
      = (st, []) := by
  have hf : freshList.find?
      (fun d => d.classNumber == classDetails.classNumber) = none := by
    rw [List.find?_eq_none]
    intro x hx
    simpa using h x hx
  simp only [perform_immediate_check, hf]

/-- C8 amended witness: concrete no-op for class 12345 against a fetch result
holding only class 99999. -/
theorem immediate_check_missing_entity_noop_instance :
    perform_immediate_check deliverOk "alerts" 1000 [dOpen2] st0 dOpen
      = (st0, []) :=
  immediate_check_missing_entity_noop deliverOk "alerts" 1000 st0 dOpen
    [dOpen2] (by decide)

/-- Projecting away the delivery outcome erases the oracle. -/
lemma map_fst_pair (f g : Rendered → Bool) (x : Option Rendered) :
    x.map (Prod.fst ∘ fun r => (r, f r)) = x.map (Prod.fst ∘ fun r => (r, g r)) := by
  cases x <;> rfl

/-- C9: the delivery outcome never influences the state machine.  For any two
delivery oracles (e.g. all-success vs all-failure), a status observation, a
reminder evaluation and an immediate check produce identical states, and
identical notification records up to the recorded delivery outcome — the
bookkeeping commits exactly as if delivery had succeeded, and a delivery
failure never propagates (the embedding is total because `send_notification`
catches every posting error). -/
theorem delivery_failure_state_independent (d1 d2 : Rendered → Bool)
    (ntfyTopic : String) (now : Int) (st : AppState) (nd : ClassDetails)
    (num : String) (classDetails : ClassDetails)
    (freshList : List ClassDetails) :
    ((checkOne d1 ntfyTopic now st nd).1 = (checkOne d2 ntfyTopic now st nd).1)
    ∧ ((checkOne d1 ntfyTopic now st nd).2.map
          (fun e => (e.reason, e.classNumber, e.delivery.map Prod.fst))
        = (checkOne d2 ntfyTopic now st nd).2.map
          (fun e => (e.reason, e.classNumber, e.delivery.map Prod.fst)))
    ∧ ((hourly_reminder_check_one d1 ntfyTopic now st num).1
        = (hourly_reminder_check_one d2 ntfyTopic now st num).1)
    ∧ ((hourly_reminder_check_one d1 ntfyTopic now st num).2.map
          (fun e => (e.reason, e.classNumber, e.delivery.map Prod.fst))
        = (hourly_reminder_check_one d2 ntfyTopic now st num).2.map
          (fun e => (e.reason, e.classNumber, e.delivery.map Prod.fst)))
    ∧ ((perform_immediate_check d1 ntfyTopic now freshList st classDetails).1
        = (perform_immediate_check d2 ntfyTopic now freshList st
            classDetails).1) := by
  refine ⟨?_, ?_, ?_, ?_, ?_⟩
  · simp only [checkOne]
    split
    · rfl
    · split
      · rfl
      · split
        · rfl
        · rfl
  · simp only [checkOne]
    split
    · rfl
    · split
      · simp only [send_notification, List.map_cons, List.map_nil,
          Option.map_map, List.cons.injEq, Prod.mk.injEq, and_true, true_and]
        exact map_fst_pair d1 d2 _
      · split
        · simp only [send_notification, List.map_cons, List.map_nil,
            Option.map_map, List.cons.injEq, Prod.mk.injEq, and_true, true_and]
          exact map_fst_pair d1 d2 _
        · rfl
  · simp only [hourly_reminder_check_one]
    split
    · rfl
    · split
      · rfl
      · split
        · split
          · rfl
          · rfl
        · rfl
  · simp only [hourly_reminder_check_one]
    split
    · rfl
    · split
      · rfl
      · split
        · split
          · simp only [send_notification, List.map_cons, List.map_nil,
              Option.map_map, List.cons.injEq, Prod.mk.injEq, and_true,
              true_and]
            exact map_fst_pair d1 d2 _
          · rfl
        · rfl
  · simp only [perform_immediate_check]
    split
    · rfl
    · split
      · rfl
      · rfl

/-- C10: re-adding an already-tracked entity whose tracker is mid OPEN streak
(`lastStatus = "OPEN"`, a SEAT_OPENED already sent) runs the immediate check,
which — when the fresh fetch finds the entity with status OPEN — emits another
SEAT_OPENED and overwrites the tracker with the freshly seeded state
`{'count': 1, 'lastSent': now, 'lastStatus': 'OPEN'}`: the debounce does not
survive a re-add. -/
theorem readd_overwrites_and_refires (deliver : Rendered → Bool)
    (ntfyTopic : String) (now : Int) (st : AppState)
    (classDetails fd cd0 : ClassDetails) (freshList : List ClassDetails)
    (trk : Tracker) (h0 : ¬ classDetails.classNumber = "")
    (_h1 : st.trackedClasses classDetails.classNumber = some cd0)
    (_h2 : st.notifyTracker classDetails.classNumber = some trk)
    (_h3 : trk.lastStatus = "OPEN")
    (h4 : freshList.find? (fun d => d.classNumber == classDetails.classNumber)
      = some fd)
    (h5 : fd.status = "OPEN") :
    ∃ r, add_tracked_class deliver ntfyTopic now freshList st classDetails
        = Except.ok r
      ∧ r.2.map Emission.reason = ["OPEN"]
      ∧ r.1.notifyTracker classDetails.classNumber = some ⟨1, now, "OPEN"⟩ := by
  refine ⟨perform_immediate_check deliver ntfyTopic now freshList
    ⟨upd st.trackedClasses classDetails.classNumber classDetails,
      st.notifyTracker⟩ classDetails, ?_, ?_, ?_⟩
  · simp [add_tracked_class, h0]
  · simp [perform_immediate_check, h4, h5, send_notification]
  · simp [perform_immediate_check, h4, h5, upd]

/-- C10 witness: concrete re-add of class 12345 at `stOpen`, fresh fetch
reporting it OPEN. -/
theorem readd_overwrites_and_refires_instance :
    ∃ r, add_tracked_class deliverOk "alerts" 9000 [dOpen] stOpen dOpen
        = Except.ok r
      ∧ r.2.map Emission.reason = ["OPEN"]
      ∧ r.1.notifyTracker "12345" = some ⟨1, 9000, "OPEN"⟩ :=
  readd_overwrites_and_refires deliverOk "alerts" 9000 stOpen dOpen dOpen
    dOpen [dOpen] trkOpen (by decide) (by rfl) (by rfl) rfl (by rfl) rfl

end ClassNotify
